import Mathlib

/-
Verification of `src/minecraft_protection.c` (XDP packet-decision pipeline)
against its natural-language specification.

The C program is shallowly embedded: machine integers are `Nat` with explicit
reductions modulo 2^w where the C uses w-bit unsigned arithmetic, BPF maps are
modelled as `Nat → Option _` stores or association lists, and the buffer
pointers `data`/`data_end` are modelled by a numeric base address `dataAddr`
together with the byte list `pkt` (so `data_end = dataAddr + pkt.length`).
The C source compares the *integer* local `offset` directly against the
*pointer* `data_end` in several places; those comparisons are embedded
exactly as written, i.e. as `offset < dataAddr + pkt.length` etc., which is
what the compiled comparison of the integer (converted to an address) against
the pointer computes.

Out-of-bounds reads: every `pkt[offset]` dereference is embedded through
`List.get?`; a dereference past the end of the buffer is recorded as an
explicit `oob` outcome instead of reading unspecified memory.

Shifts: the program is compiled to BPF, whose 32-bit ALU defines shifts with
the shift amount taken modulo 32; `shl32` embeds that semantics.
-/

/-- Value of an expression truncated to 8 bits (C `__u8`). -/
def u8 (n : Nat) : Nat := n % 256

/-- Value of an expression truncated to 16 bits (C `__u16`). -/
def u16 (n : Nat) : Nat := n % 65536

/-- Value of an expression truncated to 32 bits (C `__u32`). -/
def u32 (n : Nat) : Nat := n % 4294967296

/-- Value of an expression truncated to 64 bits (C `__u64`). -/
def u64 (n : Nat) : Nat := n % 18446744073709551616

/-- BPF 32-bit left shift: the shift amount is masked modulo 32 and the
result is truncated to 32 bits. -/
def shl32 (x s : Nat) : Nat := u32 (x <<< (s % 32))

/-- Wrapping 64-bit subtraction `a - b` (C unsigned semantics). -/
def sub64 (a b : Nat) : Nat :=
  (a + (18446744073709551616 - b % 18446744073709551616)) % 18446744073709551616

/-! ## Statistics counters (`map_stats`, `update_stats`, lines 47-52 / 104-117 / 306-312)

`map_stats` is a `BPF_MAP_TYPE_ARRAY` with `max_entries = 10`; an array-map
lookup with a key `≥ max_entries` returns NULL, in which case `update_stats`
increments nothing. -/

def MAP_STATS_MAX_ENTRIES : Nat := 10

def STAT_ALLOWED_PACKETS : Nat := 0
def STAT_BLOCKED_RATE_LIMIT : Nat := 1
def STAT_BLOCKED_BLACKLIST : Nat := 2
def STAT_BLOCKED_INVALID_PROTOCOL : Nat := 3
def STAT_BLOCKED_CHALLENGE_FAILED : Nat := 4
def STAT_BLOCKED_MAINTENANCE : Nat := 5
def STAT_TOTAL_PACKETS : Nat := 6
def STAT_XDP_DROP : Nat := 7
def STAT_XDP_PASS : Nat := 8
def STAT_XDP_REDIRECT : Nat := 9
def STAT_UDP_CHALLENGES_SENT : Nat := 10
def STAT_UDP_CHALLENGES_PASSED : Nat := 11

/-- Embedding of `update_stats` (lines 306-312): increments slot `stat_type`
of the 10-entry stats array; the lookup fails (and nothing is incremented)
when `stat_type ≥ 10`. -/
def updateStats (stats : Nat → Nat) (stat_type : Nat) : Nat → Nat :=
  if stat_type < MAP_STATS_MAX_ENTRIES then
    fun i => if i = stat_type then stats i + 1 else stats i
  else stats

/-! ## Protocol validators (lines 185-304) -/

/-- Result of a protocol validator run: `ok` is C `return 1`, `reject` is C
`return 0`, and `oob i` records that the code dereferenced `pkt[i]` with
`data + i` at or past `data_end` (an out-of-bounds read). -/
inductive VResult where
  | ok
  | reject
  | oob (offset : Nat)
deriving DecidableEq, Repr

/-- Dereference `pkt[offset]`, recording an out-of-bounds access. -/
def readByte (pkt : List Nat) (offset : Nat) : Except VResult Nat :=
  match pkt.get? offset with
  | some b => Except.ok b
  | none => Except.error (VResult.oob offset)

/-- Embedding of the first VarInt loop of `validate_minecraft_java`
(lines 205-210): `while (offset < 5 && (pkt[offset] & 0x80)) { if (offset + 1
> data_end) return 0; length |= (pkt[offset] & 0x7F) << (7 * (offset -
length_bytes)); offset++; }` with `length_bytes` always 0.  The comparison
`offset + 1 > data_end` compares the integer against the pointer and is kept
exactly as written.  The loop condition bounds `offset` by 5, so fuel 5 (the
caller's choice) can never be exhausted before the loop exits. -/
def javaLenLoop (dataAddr : Nat) (pkt : List Nat) :
    Nat → Nat → Nat → Except VResult (Nat × Nat)
  | 0, length, offset => Except.ok (length, offset)
  | fuel + 1, length, offset =>
    if offset < 5 then
      match pkt.get? offset with
      | none => Except.error (VResult.oob offset)
      | some b =>
        if b.land 128 ≠ 0 then
          if offset + 1 > dataAddr + pkt.length then Except.error VResult.reject
          else
            javaLenLoop dataAddr pkt fuel
              (length.lor (shl32 (b.land 127) (7 * offset))) (offset + 1)
        else Except.ok (length, offset)
    else Except.ok (length, offset)

/-- Embedding of the protocol-version VarInt loop of
`validate_minecraft_java` (lines 237-240): `while (offset < data_end &&
(pkt[offset] & 0x80)) { protocol_version |= (pkt[offset] & 0x7F) << (7 *
(offset - 1)); offset++; }`.  The condition compares the integer `offset`
against the pointer `data_end` as written; the loop has no byte budget,
terminating only on a clear continuation bit or when the dereference leaves
the buffer.  Fuel `dataAddr + pkt.length` (the caller's choice) exceeds the
number of iterations the condition permits, so exhaustion is unreachable. -/
def javaVerLoop (dataAddr : Nat) (pkt : List Nat) :
    Nat → Nat → Nat → Except VResult (Nat × Nat)
  | 0, ver, offset => Except.ok (ver, offset)
  | fuel + 1, ver, offset =>
    if offset < dataAddr + pkt.length then
      match pkt.get? offset with
      | none => Except.error (VResult.oob offset)
      | some b =>
        if b.land 128 ≠ 0 then
          javaVerLoop dataAddr pkt fuel
            (ver.lor (shl32 (b.land 127) (7 * (offset - 1)))) (offset + 1)
        else Except.ok (ver, offset)
    else Except.ok (ver, offset)

/-- Body of `validate_minecraft_java` (lines 185-254), with early C returns
embedded as `Except.error`. -/
def javaCore (dataAddr : Nat) (pkt : List Nat) : Except VResult Unit := do
  -- if (data + 5 > data_end) return 0;
  if dataAddr + 5 > dataAddr + pkt.length then Except.error VResult.reject else do
  -- __u8 byte = pkt[offset++];
  let byte ← readByte pkt 0
  -- parse VarInt length (lines 202-217)
  let lenOff ←
    if byte.land 128 ≠ 0 then do
      let lo ← javaLenLoop dataAddr pkt 5 (byte.land 127) 1
      -- if (offset < 5) { length |= pkt[offset] << (7 * (offset - length_bytes)); offset++; }
      if lo.2 < 5 then do
        let b ← readByte pkt lo.2
        Except.ok (lo.1.lor (shl32 b (7 * lo.2)), lo.2 + 1)
      else Except.ok lo
    else Except.ok (byte, 1)
  -- if (length < 5 || length > 100) return 0;
  if lenOff.1 < 5 ∨ lenOff.1 > 100 then Except.error VResult.reject else do
  -- if (offset >= data_end || pkt[offset] != 0x00) return 0;  [integer vs pointer]
  if lenOff.2 ≥ dataAddr + pkt.length then Except.error VResult.reject else do
  let pid ← readByte pkt lenOff.2
  if pid ≠ 0 then Except.error VResult.reject else do
  let offset := lenOff.2 + 1
  -- if (offset >= data_end) return 0;  [integer vs pointer]
  if offset ≥ dataAddr + pkt.length then Except.error VResult.reject else do
  let ver_byte ← readByte pkt offset
  let offset := offset + 1
  let verOff ←
    if ver_byte.land 128 ≠ 0 then do
      let vo ← javaVerLoop dataAddr pkt (dataAddr + pkt.length) (ver_byte.land 127) offset
      -- if (offset < data_end) { protocol_version |= pkt[offset] << (7 * (offset - 1)); offset++; }
      if vo.2 < dataAddr + pkt.length then do
        let b ← readByte pkt vo.2
        Except.ok (vo.1.lor (shl32 b (7 * (vo.2 - 1))), vo.2 + 1)
      else Except.ok vo
    else Except.ok (ver_byte, offset)
  -- if (protocol_version < 4 || protocol_version > 1000) return 0;
  if verOff.1 < 4 ∨ verOff.1 > 1000 then Except.error VResult.reject
  else Except.ok ()

/-- Embedding of `validate_minecraft_java` (lines 185-254). -/
def validate_minecraft_java (dataAddr : Nat) (pkt : List Nat) : VResult :=
  match javaCore dataAddr pkt with
  | Except.ok _ => VResult.ok
  | Except.error e => e

/-- The fixed 16-byte RakNet magic sequence (line 290). -/
def raknetMagic : List Nat :=
  [0x00, 0xFF, 0xFF, 0x00, 0xFE, 0xFE, 0xFE, 0xFE,
   0xFD, 0xFD, 0xFD, 0xFD, 0x12, 0x34, 0x56, 0x78]

/-- The magic comparison of lines 291-294: a short-circuit conjunction of the
16 byte comparisons `pkt[1] == 0x00 && ... && pkt[16] == 0x78` (all reads are
within bounds at the call site, which has checked `data + 17 <= data_end`). -/
def bedrockMagicMatch (pkt : List Nat) : Bool :=
  (List.range 16).all fun i => pkt.getD (i + 1) 0 == raknetMagic.getD i 0

/-- Embedding of `validate_minecraft_bedrock` (lines 256-304).  Note the
control flow of lines 280-301: inside the allow-set branch, the ping-tag
branch returns 1 on a magic match but *falls through* to the final
`return 1` on a mismatch. -/
def validate_minecraft_bedrock (dataAddr : Nat) (pkt : List Nat) : VResult :=
  -- if (data + 4 > data_end) return 0;
  if dataAddr + 4 > dataAddr + pkt.length then VResult.reject
  else
    match pkt.get? 0 with
    | none => VResult.oob 0
    | some packet_type =>
      if packet_type = 0x05 ∨ packet_type = 0x06 ∨ packet_type = 0x07 ∨
         packet_type = 0x08 ∨ packet_type = 0x09 ∨ packet_type = 0x10 ∨
         packet_type = 0x13 ∨ packet_type = 0x15 ∨ packet_type = 0x1c then
        if packet_type = 0x05 ∨ packet_type = 0x15 then
          if dataAddr + 17 > dataAddr + pkt.length then VResult.reject
          else if bedrockMagicMatch pkt then VResult.ok
          else VResult.ok  -- fall-through of lines 291-300: no else-branch, reaches `return 1`
        else VResult.ok
      else VResult.reject

/-- Modelled from the spec: the value declared by a standard VarInt byte
sequence ("7 low bits per byte, high bit = continuation, little-endian
accumulation").  Used only to state what a byte sequence *declares*, for
comparison with what the code parses. -/
def varintValue : List Nat → Nat
  | [] => 0
  | b :: rest => b.land 127 + 128 * varintValue rest

/-! ## Rate limiter (`struct rate_limit_state`, `update_rate_limit`, lines 79-83 / 132-168) -/

structure rate_limit_state where
  last_update : Nat  -- __u64, milliseconds
  tokens : Nat       -- __u32
  last_burst : Nat   -- __u32
deriving DecidableEq, Repr

/-- Outcome of `update_rate_limit`: the C return value (−1 error, 0 drop,
1 allow), the per-source rate entry after the call (`none` when no entry was
stored), and the number of `bpf_map_update_elem` insert attempts made on
`map_src_rate`. -/
structure RateOut where
  res : Int
  st : Option rate_limit_state
  writeAttempts : Nat
deriving DecidableEq, Repr

/-- Embedding of `get_current_time` (lines 120-123): nanoseconds divided by
10^6, truncated to `__u32` by the return type. -/
def get_current_time (now_ns : Nat) : Nat := u32 (now_ns / 1000000)

/-- Token refill of lines 150-154: `__u32 time_diff = current_time -
state->last_update; __u32 new_tokens = state->tokens + (time_diff *
rate_limit / 1000); if (new_tokens > burst_limit) new_tokens = burst_limit;`.
`current_time` (a `__u32` value) minus the `__u64` field is computed in
64 bits and truncated to 32; the product `time_diff * rate_limit` is a 32-bit
multiplication. -/
def refillTokens (tokens last_update current_time rate_limit burst_limit : Nat) : Nat :=
  let time_diff := u32 (sub64 current_time last_update)
  let new_tokens := u32 (tokens + u32 (time_diff * rate_limit) / 1000)
  if new_tokens > burst_limit then burst_limit else new_tokens

/-- Embedding of `update_rate_limit` (lines 132-168).  `state` is the current
`map_src_rate` entry for the source; `writeOk` tells whether the
`bpf_map_update_elem` insert of the first-packet branch succeeds. -/
def update_rate_limit (state : Option rate_limit_state)
    (current_time rate_limit burst_limit : Nat) (writeOk : Bool) : RateOut :=
  match state with
  | none =>
    -- first packet from this IP (lines 137-147)
    if writeOk then
      { res := 1,
        st := some { last_update := current_time, tokens := burst_limit, last_burst := 0 },
        writeAttempts := 1 }
    else { res := -1, st := none, writeAttempts := 1 }
  | some s =>
    let new_tokens := refillTokens s.tokens s.last_update current_time rate_limit burst_limit
    if new_tokens = 0 then
      -- rate limited (lines 156-160)
      { res := 0, st := some { s with last_update := current_time }, writeAttempts := 0 }
    else
      -- consume one token (lines 162-167)
      { res := 1,
        st := some { last_update := current_time, tokens := new_tokens - 1,
                     last_burst := s.last_burst },
        writeAttempts := 0 }

/-- Results of `n` consecutive `update_rate_limit` calls from one source, all
at the same `current_time` (an instantaneous burst), starting from rate
state `st`, with the state threaded through. -/
def simBurst (st : Option rate_limit_state) (t rate burst : Nat) : Nat → List Int
  | 0 => []
  | n + 1 =>
    let r := update_rate_limit st t rate burst true
    r.res :: simBurst r.st t rate burst n

/-! ## Blacklist (`is_blacklisted`, lines 170-183) -/

/-- Embedding of `is_blacklisted`: (blocked?, blacklist entry for this source
after the call — an expired entry is deleted). -/
def is_blacklisted (entry : Option Nat) (current_time : Nat) : Bool × Option Nat :=
  match entry with
  | none => (false, none)
  | some blocked_until =>
    if current_time < blocked_until then (true, some blocked_until)
    else (false, none)

/-! ## UDP challenge gate (`struct udp_challenge_state`, `handle_udp_challenge`,
lines 96-101 / 314-360) -/

structure udp_challenge_state where
  timestamp : Nat         -- __u64, milliseconds
  challenge_cookie : Nat  -- __u32
  challenge_sent : Nat    -- __u8
deriving DecidableEq, Repr

/-- Outcome of `handle_udp_challenge`: the C return value (0 drop, 1 allow),
the `map_udp_challenges` entry for this source after the call, the sequence
of `update_stats` calls made, and the number of `bpf_map_update_elem`
insert attempts made on `map_udp_challenges`. -/
structure ChallengeOut where
  res : Nat
  st : Option udp_challenge_state
  statsEvents : List Nat
  writeAttempts : Nat
deriving DecidableEq, Repr

/-- The no-state branch of `handle_udp_challenge` (lines 320-333): store a new
challenge (cookie = `(__u32)(current_time ^ src_ip)`), count it, and drop. -/
def issueChallenge (src_ip current_time : Nat) (writeOk : Bool) : ChallengeOut :=
  if writeOk then
    { res := 0,
      st := some { timestamp := current_time,
                   challenge_cookie := u32 (Nat.xor current_time src_ip),
                   challenge_sent := 1 },
      statsEvents := [STAT_UDP_CHALLENGES_SENT],
      writeAttempts := 1 }
  else
    -- failed to store challenge: return 0 with no state and no counter
    { res := 0, st := none, statsEvents := [], writeAttempts := 1 }

/-- Embedding of `handle_udp_challenge` (lines 314-360).  `challenge` is the
current `map_udp_challenges` entry for the source; `current_time` is
`bpf_ktime_get_ns() / 1000000` (64-bit); `dataAddr`/`pktLen` model the
`data`/`data_end` pair.  The expired branch (lines 336-340) deletes the entry
and recurses; after the deletion the recursive call finds no entry, so it is
exactly the no-state branch `issueChallenge`. -/
def handle_udp_challenge (src_ip : Nat) (challenge : Option udp_challenge_state)
    (current_time dataAddr pktLen : Nat) (writeOk : Bool) : ChallengeOut :=
  match challenge with
  | none => issueChallenge src_ip current_time writeOk
  | some ch =>
    if sub64 current_time ch.timestamp > 5000 then
      -- challenge expired: delete, then recurse as "no state" (lines 336-340)
      issueChallenge src_ip current_time writeOk
    else if dataAddr + 8 > dataAddr + pktLen then
      -- if (data + 8 > data_end) return 0; (line 343)
      { res := 0, st := some ch, statsEvents := [], writeAttempts := 0 }
    else if sub64 current_time ch.timestamp > 100 then
      -- challenge passed (lines 352-357)
      { res := 1, st := none, statsEvents := [STAT_UDP_CHALLENGES_PASSED],
        writeAttempts := 0 }
    else
      -- still waiting (line 359)
      { res := 0, st := some ch, statsEvents := [], writeAttempts := 0 }

/-! ## Endpoint registry (`map_protected_endpoints`, lines 18-24 / 62-77 / 392-417)

The registry is a `BPF_MAP_TYPE_LPM_TRIE` whose key is `struct endpoint_key`:
a 32-bit `prefix_len` followed by 8 data bytes — the 4 bytes of `ip` (stored
in network byte order), the 2 little-endian bytes of `port`, the `protocol`
byte and one padding byte.  `lpmLookup` models the kernel trie lookup: among
the stored entries whose own `prefix_len` is at most the *query's*
`prefix_len` and whose first `prefix_len` bits of key data equal those of the
query, it returns one with the maximal `prefix_len` (the kernel's
`longest_prefix_match` limits each comparison to
`min(node->prefixlen, key->prefixlen)`, so entries with a longer prefix than
the query's can never match).  The trie stores each (prefix, data) at most
once, so the maximum is unique there; the list model breaks ties by keeping
the earlier entry. -/

structure endpoint_key where
  prefix_len : Nat  -- __u32
  ip : Nat          -- __u32, network byte order
  port : Nat        -- __u16
  protocol : Nat    -- __u8
deriving DecidableEq, Repr

structure endpoint_info where
  origin_ip : Nat
  origin_port : Nat
  rate_limit : Nat
  burst_limit : Nat
  protocol_type : Nat     -- 0=Java, 1=Bedrock
  maintenance_mode : Nat
deriving DecidableEq, Repr

/-- The 8 data bytes of `struct endpoint_key` as laid out in memory after
`prefix_len` (little-endian host). -/
def keyData (k : endpoint_key) : List Nat :=
  [k.ip % 256, k.ip / 256 % 256, k.ip / 65536 % 256, k.ip / 16777216 % 256,
   k.port % 256, k.port / 256 % 256, k.protocol % 256, 0]

/-- Bit `i` of a byte sequence, bits numbered from the first byte's most
significant bit (the order in which the LPM trie consumes key data). -/
def dataBit (d : List Nat) (i : Nat) : Nat :=
  d.getD (i / 8) 0 / 2 ^ (7 - i % 8) % 2

/-- First `p` bits of two key-data byte sequences coincide. -/
def prefixMatches (p : Nat) (d1 d2 : List Nat) : Bool :=
  (List.range p).all fun i => dataBit d1 i == dataBit d2 i

/-- A stored entry matches a lookup key when its own prefix length does not
exceed the key's and its first `prefix_len` key-data bits equal the key's
(the kernel's `longest_prefix_match` caps each comparison at
`min(node->prefixlen, key->prefixlen)`). -/
def lpmCond (q : endpoint_key) (e : endpoint_key × endpoint_info) : Prop :=
  e.1.prefix_len ≤ q.prefix_len ∧
  prefixMatches e.1.prefix_len (keyData e.1) (keyData q) = true

instance (q : endpoint_key) (e : endpoint_key × endpoint_info) :
    Decidable (lpmCond q e) := by unfold lpmCond; infer_instance

/-- One trie-walk candidate step: keep whichever matching entry has the
longer prefix. -/
def lpmStep (q : endpoint_key) (best : Option (endpoint_key × endpoint_info))
    (e : endpoint_key × endpoint_info) : Option (endpoint_key × endpoint_info) :=
  if lpmCond q e then
    match best with
    | none => some e
    | some b => if e.1.prefix_len > b.1.prefix_len then some e else some b
  else best

/-- Modelled kernel lookup of `map_protected_endpoints` (see the section
comment above). -/
def lpmLookup (registry : List (endpoint_key × endpoint_info)) (q : endpoint_key) :
    Option (endpoint_key × endpoint_info) :=
  registry.foldl (lpmStep q) none

/-! ## Flow tracking (`hash_5tuple`, `map_conntrack`, lines 85-94 / 125-130 / 457-479) -/

structure conntrack_entry where
  src_ip : Nat
  dst_ip : Nat
  src_port : Nat
  dst_port : Nat
  protocol : Nat
  state : Nat  -- 0=unknown, 1=established, 2=challenge_sent
  challenge_id : Nat
deriving DecidableEq, Repr

/-- Embedding of `hash_5tuple` (lines 125-130): `((__u64)src_ip << 32) |
dst_ip | ((__u64)src_port << 48) | ((__u64)dst_port << 32) |
((__u64)protocol << 24)`.  Arguments are masked to their C parameter types. -/
def hash_5tuple (src_ip dst_ip src_port dst_port protocol : Nat) : Nat :=
  (u64 (u32 src_ip <<< 32)).lor ((u32 dst_ip).lor
    ((u64 (u16 src_port <<< 48)).lor ((u64 (u16 dst_port <<< 32)).lor
      (u64 (u8 protocol <<< 24)))))

/-- The conntrack step of the pipeline (lines 457-479): look the flow hash up
and, when absent, insert an `established` entry recording the 5-tuple (a
failed insert is ignored by the C code; the model lets it succeed). -/
def recordFlow (ct : Nat → Option conntrack_entry)
    (src_ip dst_ip src_port dst_port protocol : Nat) : Nat → Option conntrack_entry :=
  let flow_hash := hash_5tuple src_ip dst_ip src_port dst_port protocol
  match ct flow_hash with
  | some _ => ct
  | none =>
    fun k =>
      if k = flow_hash then
        some { src_ip := src_ip, dst_ip := dst_ip, src_port := src_port,
               dst_port := dst_port, protocol := protocol, state := 1, challenge_id := 0 }
      else ct k

/-! ## Decision pipeline (`xdp_minecraft_protection`, lines 362-483)

The pipeline is embedded over a packet whose Ethernet/IP/transport header
fields are already decoded (`Packet`), together with the raw frame bytes,
because the validators and the challenge gate are handed `data`/`data_end` —
the start of the *Ethernet frame*, exactly as in the C — and the header
bounds checks are length comparisons on that frame.  A validator's `oob`
outcome (an out-of-bounds read, impossible for frames that passed the header
checks except through the Java VarInt loops) is treated as `return 0`.
IPPROTO_TCP = 6, IPPROTO_UDP = 17. -/

inductive XdpAction where
  | XDP_DROP
  | XDP_PASS
  | XDP_REDIRECT
deriving DecidableEq, Repr

structure Packet where
  eth_is_ipv4 : Bool  -- eth->h_proto == htons(ETH_P_IP)
  saddr : Nat         -- ip->saddr
  daddr : Nat         -- ip->daddr
  protocol : Nat      -- ip->protocol
  sport : Nat         -- ntohs of the transport source port
  dport : Nat         -- ntohs of the transport destination port
  frameAddr : Nat     -- the pointer value of `data`
  frame : List Nat    -- the frame bytes, `data_end = frameAddr + frame.length`
deriving Repr

/-- The shared tables and the per-invocation environment: the BPF maps, the
clock, and whether the two state-table inserts of this invocation would
succeed (an insert into a full table fails). -/
structure Env where
  stats : Nat → Nat
  blacklist : Nat → Option Nat
  endpoints : List (endpoint_key × endpoint_info)
  src_rate : Nat → Option rate_limit_state
  udp_challenges : Nat → Option udp_challenge_state
  conntrack : Nat → Option conntrack_entry
  now_ns : Nat
  rateWriteOk : Bool
  challWriteOk : Bool

/-- Point update of a keyed store. -/
def setAt {α : Type} (m : Nat → Option α) (k : Nat) (v : Option α) :
    Nat → Option α :=
  fun i => if i = k then v else m i

/-- Terminal outcome of one pipeline invocation: the XDP action, the updated
environment, and the numbers of insert attempts made on `map_src_rate` and
on `map_udp_challenges`. -/
structure PipeOut where
  action : XdpAction
  env : Env
  rateWrites : Nat
  challWrites : Nat

/-- Admitted tail of the pipeline (lines 457-482): record the flow and count
the packet, then redirect. -/
def pipelineAdmit (env : Env) (p : Packet) : PipeOut :=
  let env := { env with
    conntrack := recordFlow env.conntrack p.saddr p.daddr p.sport p.dport p.protocol }
  let env := { env with stats := updateStats env.stats STAT_ALLOWED_PACKETS }
  { action := XdpAction.XDP_REDIRECT, env := env, rateWrites := 0, challWrites := 0 }

/-- Protocol validation and challenge step of the pipeline (lines 434-455). -/
def pipelineProto (env : Env) (p : Packet) (endpoint : endpoint_info) : PipeOut :=
  if p.protocol = 6 ∧ endpoint.protocol_type = 0 then
    if validate_minecraft_java p.frameAddr p.frame = VResult.ok then
      pipelineAdmit env p
    else
      { action := XdpAction.XDP_DROP,
        env := { env with stats := updateStats env.stats STAT_BLOCKED_INVALID_PROTOCOL },
        rateWrites := 0, challWrites := 0 }
  else if p.protocol = 17 ∧ endpoint.protocol_type = 1 then
    if validate_minecraft_bedrock p.frameAddr p.frame = VResult.ok then
      let c := handle_udp_challenge p.saddr (env.udp_challenges p.saddr)
        (env.now_ns / 1000000) p.frameAddr p.frame.length env.challWriteOk
      let env := { env with
        udp_challenges := setAt env.udp_challenges p.saddr c.st,
        stats := c.statsEvents.foldl updateStats env.stats }
      if c.res = 0 then
        { action := XdpAction.XDP_DROP,
          env := { env with stats := updateStats env.stats STAT_BLOCKED_CHALLENGE_FAILED },
          rateWrites := 0, challWrites := c.writeAttempts }
      else
        let o := pipelineAdmit env p
        { o with challWrites := c.writeAttempts }
    else
      { action := XdpAction.XDP_DROP,
        env := { env with stats := updateStats env.stats STAT_BLOCKED_INVALID_PROTOCOL },
        rateWrites := 0, challWrites := 0 }
  else
    { action := XdpAction.XDP_DROP,
      env := { env with stats := updateStats env.stats STAT_BLOCKED_INVALID_PROTOCOL },
      rateWrites := 0, challWrites := 0 }

/-- Endpoint resolution, maintenance check and rate limiting (lines 392-432). -/
def pipelineEndpoint (env : Env) (p : Packet) : PipeOut :=
  let key : endpoint_key :=
    { prefix_len := 32, ip := p.daddr, port := p.dport, protocol := p.protocol }
  match lpmLookup env.endpoints key with
  | none =>
    -- not a protected endpoint (lines 415-417)
    { action := XdpAction.XDP_PASS, env := env, rateWrites := 0, challWrites := 0 }
  | some ke =>
    if ke.2.maintenance_mode ≠ 0 then
      { action := XdpAction.XDP_DROP,
        env := { env with stats := updateStats env.stats STAT_BLOCKED_MAINTENANCE },
        rateWrites := 0, challWrites := 0 }
    else
      let r := update_rate_limit (env.src_rate p.saddr) (get_current_time env.now_ns)
        ke.2.rate_limit ke.2.burst_limit env.rateWriteOk
      let env := { env with src_rate := setAt env.src_rate p.saddr r.st }
      if r.res < 0 then
        -- error updating rate limit (lines 427-428)
        { action := XdpAction.XDP_DROP, env := env,
          rateWrites := r.writeAttempts, challWrites := 0 }
      else if r.res = 0 then
        { action := XdpAction.XDP_DROP,
          env := { env with stats := updateStats env.stats STAT_BLOCKED_RATE_LIMIT },
          rateWrites := r.writeAttempts, challWrites := 0 }
      else
        let o := pipelineProto env p ke.2
        { o with rateWrites := r.writeAttempts }

/-- Embedding of the main XDP program `xdp_minecraft_protection`
(lines 362-483). -/
def xdp_minecraft_protection (env : Env) (p : Packet) : PipeOut :=
  let env := { env with stats := updateStats env.stats STAT_TOTAL_PACKETS }
  -- if ((void *)(eth + 1) > data_end) return XDP_DROP;
  if p.frameAddr + 14 > p.frameAddr + p.frame.length then
    { action := XdpAction.XDP_DROP, env := env, rateWrites := 0, challWrites := 0 }
  else if p.eth_is_ipv4 = false then
    { action := XdpAction.XDP_PASS, env := env, rateWrites := 0, challWrites := 0 }
  -- if ((void *)(ip + 1) > data_end) return XDP_DROP;
  else if p.frameAddr + 34 > p.frameAddr + p.frame.length then
    { action := XdpAction.XDP_DROP, env := env, rateWrites := 0, challWrites := 0 }
  else
    let bl := is_blacklisted (env.blacklist p.saddr) (env.now_ns / 1000000)
    let env := { env with blacklist := setAt env.blacklist p.saddr bl.2 }
    if bl.1 then
      { action := XdpAction.XDP_DROP,
        env := { env with stats := updateStats env.stats STAT_BLOCKED_BLACKLIST },
        rateWrites := 0, challWrites := 0 }
    else if p.protocol = 6 then
      -- if ((void *)(tcp + 1) > data_end) return XDP_DROP;
      if p.frameAddr + 54 > p.frameAddr + p.frame.length then
        { action := XdpAction.XDP_DROP, env := env, rateWrites := 0, challWrites := 0 }
      else pipelineEndpoint env p
    else if p.protocol = 17 then
      -- if ((void *)(udp + 1) > data_end) return XDP_DROP;
      if p.frameAddr + 42 > p.frameAddr + p.frame.length then
        { action := XdpAction.XDP_DROP, env := env, rateWrites := 0, challWrites := 0 }
      else pipelineEndpoint env p
    else
      -- not TCP/UDP (line 411)
      { action := XdpAction.XDP_PASS, env := env, rateWrites := 0, challWrites := 0 }

/-! ## Concrete inputs used by the theorems below -/

/-- A 17-byte datagram: ping tag 0x05 followed by the RakNet magic with its
first byte altered from 0x00 to 0x01. -/
def pingAlteredMagic : List Nat :=
  [0x05, 0x01, 0xFF, 0xFF, 0x00, 0xFE, 0xFE, 0xFE, 0xFE,
   0xFD, 0xFD, 0xFD, 0xFD, 0x12, 0x34, 0x56, 0x78]

/-- A 5-byte buffer whose length VarInt consumes all five bytes (value 50):
parsing then dereferences `pkt[5]`, one past the buffer end. -/
def fiveByteVarintBuf : List Nat := [0xB2, 0x80, 0x80, 0x80, 0x80]

/-- A 9-byte handshake whose protocol-version VarInt spans seven bytes
(continuation bytes 0x80, final byte 0x00), far past the 5-byte budget. -/
def longVersionVarintBuf : List Nat :=
  [0x32, 0x00, 0x85, 0x80, 0x80, 0x80, 0x80, 0x80, 0x00]

/-- The canonical handshake prefix: declared length 50, packet id 0, protocol
version 760 in its standard VarInt encoding 0xF8 0x05. -/
def handshake760 : List Nat := [0x32, 0x00, 0xF8, 0x05, 0x00]

/-- A registry holding one endpoint: /32 prefix for ip 10.0.0.1 (stored u32
167772161), port 25565, protocol TCP (6). -/
def oneEndpointRegistry : List (endpoint_key × endpoint_info) :=
  [({ prefix_len := 32, ip := 167772161, port := 25565, protocol := 6 },
    { origin_ip := 3232235521, origin_port := 25566, rate_limit := 100,
      burst_limit := 10, protocol_type := 0, maintenance_mode := 0 })]

/-- Environment for the fail-closed witness: one protected TCP endpoint, all
state tables empty, and the `map_src_rate` insert of this invocation
failing. -/
def failClosedEnv : Env :=
  { stats := fun _ => 0,
    blacklist := fun _ => none,
    endpoints := oneEndpointRegistry,
    src_rate := fun _ => none,
    udp_challenges := fun _ => none,
    conntrack := fun _ => none,
    now_ns := 0,
    rateWriteOk := false,
    challWriteOk := true }

/-- A first packet from a fresh source to the protected TCP endpoint. -/
def failClosedPkt : Packet :=
  { eth_is_ipv4 := true, saddr := 16909060, daddr := 167772161, protocol := 6,
    sport := 4444, dport := 25565, frameAddr := 4096,
    frame := List.replicate 54 0 }

/-- A stored challenge issued at t = 9950 ms, used to instantiate the
challenge-gate state machine at t = 10000 ms. -/
def sampleChallenge : udp_challenge_state :=
  { timestamp := 9950, challenge_cookie := 5, challenge_sent := 1 }

/-- A lookup key for 10.0.0.1 with destination port 80 and protocol UDP —
a port/protocol combination matching no entry of `oneEndpointRegistry`. -/
def mismatchedQuery : endpoint_key :=
  { prefix_len := 32, ip := 167772161, port := 80, protocol := 17 }

/-- The single entry of `oneEndpointRegistry`. -/
def theEndpoint : endpoint_key × endpoint_info :=
  ({ prefix_len := 32, ip := 167772161, port := 25565, protocol := 6 },
   { origin_ip := 3232235521, origin_port := 25566, rate_limit := 100,
     burst_limit := 10, protocol_type := 0, maintenance_mode := 0 })

/-- A UDP packet to destination address 99, which no registry entry's
address prefix covers. -/
def unmanagedPkt : Packet :=
  { eth_is_ipv4 := true, saddr := 16909060, daddr := 99, protocol := 17,
    sport := 4444, dport := 19132, frameAddr := 4096,
    frame := List.replicate 46 0 }

/-! ## Helper lemmas -/

theorem sub64_self (t : Nat) : sub64 t t = 0 := by
  unfold sub64
  have h1 : t % 18446744073709551616 ≤ t := Nat.mod_le t _
  have h2 : t % 18446744073709551616 < 18446744073709551616 :=
    Nat.mod_lt t (by norm_num)
  have h3 : t + (18446744073709551616 - t % 18446744073709551616) =
      (t - t % 18446744073709551616) + 18446744073709551616 := by omega
  rw [h3, Nat.add_mod_right]
  have h4 : t - t % 18446744073709551616 =
      18446744073709551616 * (t / 18446744073709551616) := by
    have := Nat.div_add_mod t 18446744073709551616
    omega
  rw [h4]
  exact Nat.mul_mod_right _ _

theorem sub64_of_le {a b : Nat} (hba : b ≤ a) (ha : a < 18446744073709551616) :
    sub64 a b = a - b := by
  unfold sub64
  have hb : b % 18446744073709551616 = b :=
    Nat.mod_eq_of_lt (lt_of_le_of_lt hba ha)
  rw [hb]
  have h3 : a + (18446744073709551616 - b) = (a - b) + 18446744073709551616 := by
    omega
  rw [h3, Nat.add_mod_right]
  exact Nat.mod_eq_of_lt (by omega)

theorem simBurst_succ (st : Option rate_limit_state) (t rate burst n : Nat) :
    simBurst st t rate burst (n + 1) =
      (update_rate_limit st t rate burst true).res ::
        simBurst (update_rate_limit st t rate burst true).st t rate burst n := rfl

/-- At an unchanged clock the refill adds nothing and the clamp is inert, so
the bucket keeps its token count. -/
theorem refillTokens_same_time (k t rate burst : Nat) (hk : k ≤ burst)
    (hb : burst < 4294967296) :
    refillTokens k t t rate burst = k := by
  have hk2 : k % 4294967296 = k := Nat.mod_eq_of_lt (lt_of_le_of_lt hk hb)
  simp [refillTokens, sub64_self, u32, hk2, Nat.not_lt.mpr hk]

/-- Starting from a bucket holding `k ≤ burst` tokens with the clock frozen,
the next `k` packets are allowed and the `(k+1)`-st is denied. -/
theorem simBurst_countdown (t rate burst lb : Nat) (hb : burst < 4294967296) :
    ∀ k, k ≤ burst →
      simBurst (some { last_update := t, tokens := k, last_burst := lb })
        t rate burst (k + 1) = List.replicate k 1 ++ [0] := by
  intro k
  induction k with
  | zero =>
    intro _
    rw [simBurst_succ]
    simp [update_rate_limit, refillTokens_same_time 0 t rate burst (Nat.zero_le _) hb,
      simBurst]
  | succ n ih =>
    intro hk
    rw [simBurst_succ]
    have hupd : update_rate_limit
        (some { last_update := t, tokens := n + 1, last_burst := lb }) t rate burst true =
        { res := 1, st := some { last_update := t, tokens := n, last_burst := lb },
          writeAttempts := 0 } := by
      simp [update_rate_limit, refillTokens_same_time (n + 1) t rate burst hk hb]
    rw [hupd]
    simp only [List.replicate_succ, List.cons_append]
    exact congrArg (List.cons 1) (ih (Nat.le_of_succ_le hk))

/-! ## Claims -/

/-- C1: the datagram validator is claimed to reject a ping-tagged packet
(0x05/0x15) whenever one of the 16 magic bytes differs.  The code instead
falls through the failed magic comparison (lines 291-297) to the generic
`return 1` of line 300, accepting the packet: a 17-byte 0x05 packet whose
first magic byte is 0x01 instead of 0x00 is accepted, contradicting the
comment of lines 286-290 that the magic bytes "should" follow the tag. -/
theorem c1_magic_mismatch_accepted :
    pingAlteredMagic.length = 17 ∧
    pingAlteredMagic.get? 0 = some 0x05 ∧
    bedrockMagicMatch pingAlteredMagic = false ∧
    validate_minecraft_bedrock 4096 pingAlteredMagic = VResult.ok := by decide

/-- C2: the handshake validator is claimed to bound-check every read and to
cap each VarInt at 5 bytes.  The comparisons of lines 206, 224, 229, 237 and
241 compare the integer `offset` against the pointer `data_end`, so they
never fire: on a 5-byte buffer whose length VarInt consumes all five bytes
the code dereferences `pkt[5]`, one past the buffer end; and a
protocol-version VarInt spanning seven bytes is consumed without any 5-byte
budget and the packet is accepted. -/
theorem c2_bounds_checks_ineffective :
    fiveByteVarintBuf.length = 5 ∧
    validate_minecraft_java 4096 fiveByteVarintBuf = VResult.oob 5 ∧
    validate_minecraft_java 4096 longVersionVarintBuf = VResult.ok := by decide

/-- C8: a well-formed handshake declaring length 50, packet id 0 and protocol
version 760 (VarInt 0xF8 0x05, i.e. the version the comment on line 249 calls
typical) is claimed to be accepted.  The version-VarInt accumulation of lines
238/242 shifts by `7 * (offset - 1)` — the absolute buffer offset — instead
of 7 times the VarInt byte index, so the code parses the version as
120 ||| (5 <<< 14) = 82040 > 1000 and rejects the packet. -/
theorem c8_version_760_rejected :
    varintValue [0xF8, 0x05] = 760 ∧
    (4 ≤ 760 ∧ 760 ≤ 1000) ∧
    validate_minecraft_java 4096 handshake760 = VResult.reject := by decide

/-- C4: the challenge-sent and challenge-passed tallies are claimed to be
usable slots of the counters array that their increments reach.  `map_stats`
has `max_entries = 10` (line 51) while `STAT_UDP_CHALLENGES_SENT` and
`STAT_UDP_CHALLENGES_PASSED` are indices 10 and 11, so the array lookup in
`update_stats` returns NULL for them and the increment is skipped entirely:
issuing or passing a challenge leaves every counter unchanged. -/
theorem c4_challenge_counters_unreachable :
    MAP_STATS_MAX_ENTRIES ≤ STAT_UDP_CHALLENGES_SENT ∧
    MAP_STATS_MAX_ENTRIES ≤ STAT_UDP_CHALLENGES_PASSED ∧
    (∀ stats : Nat → Nat, updateStats stats STAT_UDP_CHALLENGES_SENT = stats) ∧
    (∀ stats : Nat → Nat, updateStats stats STAT_UDP_CHALLENGES_PASSED = stats) ∧
    (handle_udp_challenge 7 none 1000 4096 42 true).statsEvents =
      [STAT_UDP_CHALLENGES_SENT] ∧
    (∀ stats : Nat → Nat,
      (handle_udp_challenge 7 none 1000 4096 42 true).statsEvents.foldl
        updateStats stats = stats) ∧
    (handle_udp_challenge 7
        (some { timestamp := 800, challenge_cookie := 0, challenge_sent := 1 })
        1000 4096 42 true).statsEvents = [STAT_UDP_CHALLENGES_PASSED] ∧
    (∀ stats : Nat → Nat,
      (handle_udp_challenge 7
          (some { timestamp := 800, challenge_cookie := 0, challenge_sent := 1 })
          1000 4096 42 true).statsEvents.foldl updateStats stats = stats) :=
  ⟨by decide, by decide, fun _ => rfl, fun _ => rfl, by decide, fun _ => rfl,
   by decide, fun _ => rfl⟩

/-- C10: the 64-bit flow key is not injective: the 5-tuple (0,0,0,0,proto 1)
and the 5-tuple with destination address 0x01000000 and proto 0 hash to the
same key (protocol is shifted onto bits 24-31, overlapping the destination
address), so after the first flow is recorded the second flow finds the
conntrack entry occupied, inserts nothing, and the shared entry still records
the first flow's 5-tuple. -/
theorem c10_hash_5tuple_collision :
    hash_5tuple 0 0 0 0 1 = hash_5tuple 0 16777216 0 0 0 ∧
    ((0 : Nat), (0 : Nat), (0 : Nat), (0 : Nat), (1 : Nat)) ≠
      ((0 : Nat), (16777216 : Nat), (0 : Nat), (0 : Nat), (0 : Nat)) ∧
    recordFlow (recordFlow (fun _ => none) 0 0 0 0 1) 0 16777216 0 0 0 =
      recordFlow (fun _ => none) 0 0 0 0 1 ∧
    recordFlow (fun _ => none) 0 0 0 0 1 (hash_5tuple 0 16777216 0 0 0) =
      some { src_ip := 0, dst_ip := 0, src_port := 0, dst_port := 0,
             protocol := 1, state := 1, challenge_id := 0 } :=
  ⟨by decide, by decide, rfl, by decide⟩

/-- C3 counterexample: with burst limit 2 an instantaneous four-packet burst
from a fresh source is allowed three times before the first deny (the first
packet initializes the bucket to the full burst limit without consuming a
token, lines 137-147), not exactly twice as claimed. -/
theorem c3_counterexample_burst_allows_three :
    simBurst none 1000 100 2 4 = [1, 1, 1, 0] ∧
    ((simBurst none 1000 100 2 4).takeWhile (fun r => r == 1)).length ≠ 2 := by
  decide

/-- C9 counterexample: with stored tokens 0, burst limit 5, rate 1024/s and
4194304 ms elapsed, the 32-bit product `time_diff * rate_limit` (line 151)
wraps to 0, so the code refills nothing and denies, while the unbounded
formula min(burst, tokens + floor(elapsed*rate/1000)) gives a full bucket. -/
theorem c9_counterexample_refill_multiplication_wraps :
    refillTokens 0 0 4194304 1024 5 = 0 ∧
    min 5 (0 + 4194304 * 1024 / 1000) = 5 ∧
    (update_rate_limit
      (some { last_update := 0, tokens := 0, last_burst := 0 })
      4194304 1024 5 true).res = 0 := by decide

/-- C5 counterexample: the registry holds a single /32 entry for
(10.0.0.1, port 25565, TCP); the pipeline's lookup for a packet to 10.0.0.1
with destination port 80 and protocol UDP — which matches no entry's port or
protocol — still returns that entry's policy, because the lookup key's
`prefix_len = 32` confines matching to the address bytes and the port and
protocol fields never participate. -/
theorem c5_counterexample_port_protocol_ignored :
    lpmLookup oneEndpointRegistry
        { prefix_len := 32, ip := 167772161, port := 80, protocol := 17 } =
      some ({ prefix_len := 32, ip := 167772161, port := 25565, protocol := 6 },
            { origin_ip := 3232235521, origin_port := 25566, rate_limit := 100,
              burst_limit := 10, protocol_type := 0, maintenance_mode := 0 }) ∧
    (25565 : Nat) ≠ 80 ∧ (6 : Nat) ≠ 17 := by decide

/-- C3 amended: from a fresh source, an instantaneous burst admits exactly
burst_limit + 1 packets before the first deny — one more than claimed,
because the first-packet branch (lines 137-147) stores a full bucket and
allows without consuming a token, and each later packet of the burst
consumes one of the `burst` stored tokens. -/
theorem c3_amended_burst_allows_burst_plus_one (t rate burst : Nat)
    (hb : burst < 4294967296) :
    simBurst none t rate burst (burst + 2) =
      List.replicate (burst + 1) 1 ++ [0] := by
  have h1 : simBurst none t rate burst (burst + 1 + 1) =
      1 :: simBurst (some { last_update := t, tokens := burst, last_burst := 0 })
        t rate burst (burst + 1) := by
    rw [simBurst_succ]
    simp [update_rate_limit]
  rw [show burst + 2 = burst + 1 + 1 from rfl, h1,
    simBurst_countdown t rate burst 0 hb burst le_rfl]
  simp [List.replicate_succ]

theorem c3_amended_burst_allows_burst_plus_one_witness :
    2 < 4294967296 ∧
    simBurst none 1000 100 2 4 = List.replicate 3 1 ++ [0] :=
  ⟨by norm_num, c3_amended_burst_allows_burst_plus_one 1000 100 2 (by norm_num)⟩

/-- C9 amended: the refill of lines 150-154 equals the unbounded
min(burst, tokens + floor(elapsed × rate / 1000)) whenever the elapsed time
fits in 32 bits and neither the 32-bit product `elapsed × rate` nor the sum
`tokens + refill` exceeds 2^32; outside those bounds the 32-bit arithmetic
wraps (see the counterexample theorem). -/
theorem c9_amended_refill_exact_without_overflow
    (tokens lu ct rate burst : Nat)
    (hlu : lu ≤ ct) (hct : ct < 18446744073709551616)
    (hdiff : ct - lu < 4294967296)
    (htok : tokens ≤ burst) (hb : burst < 4294967296)
    (hmul : (ct - lu) * rate < 4294967296)
    (hadd : tokens + (ct - lu) * rate / 1000 < 4294967296) :
    refillTokens tokens lu ct rate burst =
      min burst (tokens + (ct - lu) * rate / 1000) := by
  simp only [refillTokens, u32, sub64_of_le hlu hct]
  rw [Nat.mod_eq_of_lt hdiff, Nat.mod_eq_of_lt hmul, Nat.mod_eq_of_lt hadd]
  split <;> omega

theorem c9_amended_refill_exact_without_overflow_witness :
    ((0 : Nat) ≤ 1000 ∧ 1000 < 18446744073709551616 ∧
     1000 - 0 < 4294967296 ∧ (3 : Nat) ≤ 10 ∧ 10 < 4294967296 ∧
     (1000 - 0) * 2 < 4294967296 ∧ 3 + (1000 - 0) * 2 / 1000 < 4294967296) ∧
    refillTokens 3 0 1000 2 10 = min 10 (3 + (1000 - 0) * 2 / 1000) :=
  ⟨⟨by norm_num, by norm_num, by norm_num, by norm_num, by norm_num,
    by norm_num, by norm_num⟩,
   c9_amended_refill_exact_without_overflow 3 0 1000 2 10 (by norm_num)
     (by norm_num) (by norm_num) (by norm_num) (by norm_num) (by norm_num)
     (by norm_num)⟩

/-- C6: the challenge gate follows the claimed four-case state machine for
every source and every packet reaching it (every packet handed to the gate by
the pipeline carries its Ethernet/IP/UDP headers, so its buffer length is at
least 42 ≥ 8 and the `data + 8 > data_end` guard of line 343 never fires):
no stored state creates a challenge and denies; age > 5000 ms replaces the
state with a fresh challenge and denies; age in (100, 5000] ms deletes the
state and allows; age ≤ 100 ms denies without touching the state. -/
theorem c6_challenge_state_machine (src now dataAddr len : Nat)
    (ch : udp_challenge_state) (h8 : 8 ≤ len) (hts : ch.timestamp ≤ now)
    (hnow : now < 18446744073709551616) :
    handle_udp_challenge src none now dataAddr len true =
      { res := 0,
        st := some { timestamp := now, challenge_cookie := u32 (Nat.xor now src),
                     challenge_sent := 1 },
        statsEvents := [STAT_UDP_CHALLENGES_SENT], writeAttempts := 1 } ∧
    (5000 < now - ch.timestamp →
      handle_udp_challenge src (some ch) now dataAddr len true =
        { res := 0,
          st := some { timestamp := now, challenge_cookie := u32 (Nat.xor now src),
                       challenge_sent := 1 },
          statsEvents := [STAT_UDP_CHALLENGES_SENT], writeAttempts := 1 }) ∧
    (100 < now - ch.timestamp → now - ch.timestamp ≤ 5000 →
      handle_udp_challenge src (some ch) now dataAddr len true =
        { res := 1, st := none, statsEvents := [STAT_UDP_CHALLENGES_PASSED],
          writeAttempts := 0 }) ∧
    (now - ch.timestamp ≤ 100 →
      handle_udp_challenge src (some ch) now dataAddr len true =
        { res := 0, st := some ch, statsEvents := [], writeAttempts := 0 }) := by
  have hsub : sub64 now ch.timestamp = now - ch.timestamp := sub64_of_le hts hnow
  have hlen : ¬ (dataAddr + 8 > dataAddr + len) := by omega
  refine ⟨rfl, ?_, ?_, ?_⟩
  · intro h
    simp [handle_udp_challenge, hsub, h, issueChallenge]
  · intro h1 h2
    simp [handle_udp_challenge, hsub, Nat.not_lt.mpr h2, hlen, h1]
  · intro h
    have h5 : ¬ (5000 < now - ch.timestamp) := by omega
    simp [handle_udp_challenge, hsub, h5, hlen, Nat.not_lt.mpr h]

theorem c6_challenge_state_machine_witness :
    ((8 : Nat) ≤ 42 ∧ sampleChallenge.timestamp ≤ 10000 ∧
     10000 < 18446744073709551616) ∧
    (handle_udp_challenge 3 none 10000 4096 42 true =
      { res := 0,
        st := some { timestamp := 10000, challenge_cookie := u32 (Nat.xor 10000 3),
                     challenge_sent := 1 },
        statsEvents := [STAT_UDP_CHALLENGES_SENT], writeAttempts := 1 } ∧
    (5000 < 10000 - sampleChallenge.timestamp →
      handle_udp_challenge 3 (some sampleChallenge) 10000 4096 42 true =
        { res := 0,
          st := some { timestamp := 10000, challenge_cookie := u32 (Nat.xor 10000 3),
                       challenge_sent := 1 },
          statsEvents := [STAT_UDP_CHALLENGES_SENT], writeAttempts := 1 }) ∧
    (100 < 10000 - sampleChallenge.timestamp →
      10000 - sampleChallenge.timestamp ≤ 5000 →
      handle_udp_challenge 3 (some sampleChallenge) 10000 4096 42 true =
        { res := 1, st := none, statsEvents := [STAT_UDP_CHALLENGES_PASSED],
          writeAttempts := 0 }) ∧
    (10000 - sampleChallenge.timestamp ≤ 100 →
      handle_udp_challenge 3 (some sampleChallenge) 10000 4096 42 true =
        { res := 0, st := some sampleChallenge, statsEvents := [],
          writeAttempts := 0 })) :=
  ⟨⟨by norm_num, by decide, by norm_num⟩,
   c6_challenge_state_machine 3 10000 4096 42 sampleChallenge
     (by norm_num) (by decide) (by norm_num)⟩

theorem update_rate_limit_writes (st : Option rate_limit_state)
    (ct rl bl : Nat) (w : Bool) :
    (update_rate_limit st ct rl bl w).writeAttempts ≤ 1 ∧
    (w = false → 1 ≤ (update_rate_limit st ct rl bl w).writeAttempts →
      (update_rate_limit st ct rl bl w).res < 0) := by
  cases st with
  | none => cases w <;> simp [update_rate_limit]
  | some s =>
    simp only [update_rate_limit]
    split <;> simp

theorem handle_udp_challenge_writes (src : Nat) (ch : Option udp_challenge_state)
    (ct a l : Nat) (w : Bool) :
    (handle_udp_challenge src ch ct a l w).writeAttempts ≤ 1 ∧
    (1 ≤ (handle_udp_challenge src ch ct a l w).writeAttempts →
      (handle_udp_challenge src ch ct a l w).res = 0) := by
  cases ch with
  | none => cases w <;> simp [handle_udp_challenge, issueChallenge]
  | some c =>
    simp only [handle_udp_challenge]
    split
    · cases w <;> simp [issueChallenge]
    · split
      · simp
      · split <;> simp

theorem pipelineProto_writes (env : Env) (p : Packet) (e : endpoint_info) :
    (pipelineProto env p e).rateWrites = 0 ∧
    (pipelineProto env p e).challWrites ≤ 1 ∧
    (1 ≤ (pipelineProto env p e).challWrites →
      (pipelineProto env p e).action = XdpAction.XDP_DROP) := by
  simp only [pipelineProto]
  split
  · split
    · simp [pipelineAdmit]
    · simp
  · split
    · split
      · obtain ⟨hA, hB⟩ := handle_udp_challenge_writes p.saddr
          (env.udp_challenges p.saddr) (env.now_ns / 1000000) p.frameAddr
          p.frame.length env.challWriteOk
        split
        · exact ⟨rfl, hA, fun _ => rfl⟩
        · rename_i hres
          have hw : (handle_udp_challenge p.saddr (env.udp_challenges p.saddr)
              (env.now_ns / 1000000) p.frameAddr p.frame.length
              env.challWriteOk).writeAttempts = 0 := by
            by_contra hne
            exact hres (hB (by omega))
          simp [pipelineAdmit, hw]
      · simp
    · simp

theorem pipelineEndpoint_writes (env : Env) (p : Packet) :
    (pipelineEndpoint env p).rateWrites ≤ 1 ∧
    (pipelineEndpoint env p).challWrites ≤ 1 ∧
    (env.rateWriteOk = false → 1 ≤ (pipelineEndpoint env p).rateWrites →
      (pipelineEndpoint env p).action = XdpAction.XDP_DROP) ∧
    (1 ≤ (pipelineEndpoint env p).challWrites →
      (pipelineEndpoint env p).action = XdpAction.XDP_DROP) := by
  simp only [pipelineEndpoint]
  split
  · simp
  · rename_i ke _
    split
    · simp
    · obtain ⟨hA, hB⟩ := update_rate_limit_writes (env.src_rate p.saddr)
        (get_current_time env.now_ns) ke.2.rate_limit ke.2.burst_limit
        env.rateWriteOk
      split
      · refine ⟨hA, by simp, fun _ _ => rfl, by simp⟩
      · split
        · refine ⟨hA, by simp, fun _ _ => rfl, by simp⟩
        · rename_i hneg _
          refine ⟨hA, (pipelineProto_writes _ p ke.2).2.1, ?_,
            (pipelineProto_writes _ p ke.2).2.2⟩
          intro hfalse hge
          exact absurd (hB hfalse hge) hneg

theorem xdp_pipeline_writes (env : Env) (p : Packet) :
    (xdp_minecraft_protection env p).rateWrites ≤ 1 ∧
    (xdp_minecraft_protection env p).challWrites ≤ 1 ∧
    (env.rateWriteOk = false →
      1 ≤ (xdp_minecraft_protection env p).rateWrites →
      (xdp_minecraft_protection env p).action = XdpAction.XDP_DROP) ∧
    (1 ≤ (xdp_minecraft_protection env p).challWrites →
      (xdp_minecraft_protection env p).action = XdpAction.XDP_DROP) := by
  simp only [xdp_minecraft_protection]
  split
  · simp
  · split
    · simp
    · split
      · simp
      · split
        · simp
        · split
          · split
            · simp
            · exact pipelineEndpoint_writes _ p
          · split
            · split
              · simp
              · exact pipelineEndpoint_writes _ p
            · simp

/-- C7: when a state-table write of this invocation fails — the
`map_src_rate` insert for a first-seen source (lines 144-145) or the
`map_udp_challenges` insert (lines 328-329) — the pipeline's terminal action
is XDP_DROP, never XDP_REDIRECT (forward) or XDP_PASS, and at most one insert
attempt is made on each of the two tables, so the failed write is not
retried within the invocation. -/
theorem c7_failed_state_write_fails_closed (env : Env) (p : Packet)
    (hfail :
      (env.rateWriteOk = false ∧
        1 ≤ (xdp_minecraft_protection env p).rateWrites) ∨
      (env.challWriteOk = false ∧
        1 ≤ (xdp_minecraft_protection env p).challWrites)) :
    (xdp_minecraft_protection env p).action = XdpAction.XDP_DROP ∧
    (xdp_minecraft_protection env p).rateWrites ≤ 1 ∧
    (xdp_minecraft_protection env p).challWrites ≤ 1 := by
  obtain ⟨h1, h2, h3, h4⟩ := xdp_pipeline_writes env p
  rcases hfail with ⟨hw, hge⟩ | ⟨_, hge⟩
  · exact ⟨h3 hw hge, h1, h2⟩
  · exact ⟨h4 hge, h1, h2⟩

theorem c7_failed_state_write_fails_closed_witness :
    (failClosedEnv.rateWriteOk = false ∧
      1 ≤ (xdp_minecraft_protection failClosedEnv failClosedPkt).rateWrites) ∧
    ((xdp_minecraft_protection failClosedEnv failClosedPkt).action =
        XdpAction.XDP_DROP ∧
      (xdp_minecraft_protection failClosedEnv failClosedPkt).rateWrites ≤ 1 ∧
      (xdp_minecraft_protection failClosedEnv failClosedPkt).challWrites ≤ 1) := by
  have h : failClosedEnv.rateWriteOk = false ∧
      1 ≤ (xdp_minecraft_protection failClosedEnv failClosedPkt).rateWrites :=
    ⟨rfl, by decide⟩
  exact ⟨h, c7_failed_state_write_fails_closed failClosedEnv failClosedPkt
    (Or.inl h)⟩

theorem list_all_congr {α : Type} {l : List α} {f g : α → Bool}
    (h : ∀ x ∈ l, f x = g x) : l.all f = l.all g := by
  induction l with
  | nil => rfl
  | cons a t ih =>
    simp only [List.all_cons]
    rw [h a (List.mem_cons_self a t),
      ih fun x hx => h x (List.mem_cons_of_mem a hx)]

/-- The first 32 key-data bits are determined by the address field alone. -/
theorem keyData_bit_lt32 (ip pA prA pB prB plA plB i : Nat) (hi : i < 32) :
    dataBit (keyData { prefix_len := plA, ip := ip, port := pA, protocol := prA }) i =
    dataBit (keyData { prefix_len := plB, ip := ip, port := pB, protocol := prB }) i := by
  have h4 : i / 8 = 0 ∨ i / 8 = 1 ∨ i / 8 = 2 ∨ i / 8 = 3 := by omega
  rcases h4 with h | h | h | h <;> simp [dataBit, keyData, h]

/-- A prefix comparison of at most 32 bits against a key's data cannot see
the key's port or protocol. -/
theorem prefixMatches_keyData_lt32 (pl : Nat) (hpl : pl ≤ 32) (d : List Nat)
    (ip pA prA pB prB qplA qplB : Nat) :
    prefixMatches pl d
      (keyData { prefix_len := qplA, ip := ip, port := pA, protocol := prA }) =
    prefixMatches pl d
      (keyData { prefix_len := qplB, ip := ip, port := pB, protocol := prB }) := by
  unfold prefixMatches
  apply list_all_congr
  intro i hi
  have hi32 : i < 32 := lt_of_lt_of_le (List.mem_range.mp hi) hpl
  rw [keyData_bit_lt32 ip pA prA pB prB qplA qplB i hi32]

theorem lpmStep_port_protocol_irrelevant (ip pA prA pB prB : Nat) :
    lpmStep { prefix_len := 32, ip := ip, port := pA, protocol := prA } =
    lpmStep { prefix_len := 32, ip := ip, port := pB, protocol := prB } := by
  funext best e
  unfold lpmStep
  have hiff : lpmCond { prefix_len := 32, ip := ip, port := pA, protocol := prA } e ↔
      lpmCond { prefix_len := 32, ip := ip, port := pB, protocol := prB } e := by
    unfold lpmCond
    constructor
    · rintro ⟨h1, h2⟩
      refine ⟨h1, ?_⟩
      rw [← prefixMatches_keyData_lt32 e.1.prefix_len h1 (keyData e.1)
        ip pA prA pB prB 32 32]
      exact h2
    · rintro ⟨h1, h2⟩
      refine ⟨h1, ?_⟩
      rw [prefixMatches_keyData_lt32 e.1.prefix_len h1 (keyData e.1)
        ip pA prA pB prB 32 32]
      exact h2
  exact if_congr hiff rfl rfl

theorem lpmStep_eq_some (q : endpoint_key)
    (acc : Option (endpoint_key × endpoint_info))
    (x e : endpoint_key × endpoint_info) :
    lpmStep q acc x = some e → acc = some e ∨ (e = x ∧ lpmCond q x) := by
  unfold lpmStep
  split
  · rename_i hc
    cases acc with
    | none => intro h; exact Or.inr ⟨(Option.some.inj h).symm, hc⟩
    | some b =>
      intro h
      have h2 : (if x.1.prefix_len > b.1.prefix_len then some x else some b) =
          some e := h
      by_cases hgt : x.1.prefix_len > b.1.prefix_len
      · rw [if_pos hgt] at h2
        exact Or.inr ⟨(Option.some.inj h2).symm, hc⟩
      · rw [if_neg hgt] at h2
        exact Or.inl h2
  · intro h; exact Or.inl h

theorem lpmStep_dominates_new (q : endpoint_key)
    (acc : Option (endpoint_key × endpoint_info))
    (x : endpoint_key × endpoint_info) (hc : lpmCond q x) :
    ∃ y, lpmStep q acc x = some y ∧ x.1.prefix_len ≤ y.1.prefix_len := by
  unfold lpmStep
  rw [if_pos hc]
  cases acc with
  | none => exact ⟨x, rfl, le_rfl⟩
  | some b =>
    by_cases hgt : x.1.prefix_len > b.1.prefix_len
    · exact ⟨x, by simp [hgt], le_rfl⟩
    · exact ⟨b, by simp [hgt], by omega⟩

theorem lpmStep_dominates_acc (q : endpoint_key)
    (acc : Option (endpoint_key × endpoint_info))
    (x b : endpoint_key × endpoint_info) (hb : acc = some b) :
    ∃ y, lpmStep q acc x = some y ∧ b.1.prefix_len ≤ y.1.prefix_len := by
  subst hb
  unfold lpmStep
  split
  · by_cases hgt : x.1.prefix_len > b.1.prefix_len
    · exact ⟨x, by simp [hgt], by omega⟩
    · exact ⟨b, by simp [hgt], le_rfl⟩
  · exact ⟨b, rfl, le_rfl⟩

/-- Invariant of the lookup fold: the result comes from the accumulator or is
a matching list entry, and it dominates (in prefix length) every matching
list entry and the accumulator. -/
theorem lpmFold_inv (q : endpoint_key) :
    ∀ (l : List (endpoint_key × endpoint_info))
      (acc : Option (endpoint_key × endpoint_info)),
      (∀ e, List.foldl (lpmStep q) acc l = some e →
        acc = some e ∨ (e ∈ l ∧ lpmCond q e)) ∧
      (∀ e2 ∈ l, lpmCond q e2 → ∃ e, List.foldl (lpmStep q) acc l = some e ∧
        e2.1.prefix_len ≤ e.1.prefix_len) ∧
      (∀ b, acc = some b → ∃ e, List.foldl (lpmStep q) acc l = some e ∧
        b.1.prefix_len ≤ e.1.prefix_len) := by
  intro l
  induction l with
  | nil =>
    intro acc
    refine ⟨fun e he => Or.inl he, ?_, ?_⟩
    · intro e2 h2
      exact absurd h2 (List.not_mem_nil e2)
    · intro b hb
      exact ⟨b, hb, le_rfl⟩
  | cons x t ih =>
    intro acc
    have hfold : List.foldl (lpmStep q) acc (x :: t) =
        List.foldl (lpmStep q) (lpmStep q acc x) t := rfl
    obtain ⟨ih1, ih2, ih3⟩ := ih (lpmStep q acc x)
    refine ⟨?_, ?_, ?_⟩
    · intro e he
      rw [hfold] at he
      rcases ih1 e he with h | ⟨hm, hc⟩
      · rcases lpmStep_eq_some q acc x e h with h2 | ⟨hex, hcx⟩
        · exact Or.inl h2
        · cases hex
          exact Or.inr ⟨List.mem_cons_self x t, hcx⟩
      · exact Or.inr ⟨List.mem_cons_of_mem x hm, hc⟩
    · intro e2 h2 hc2
      rw [hfold]
      rcases List.mem_cons.mp h2 with he2 | hm
      · subst he2
        obtain ⟨y, hy, hle⟩ := lpmStep_dominates_new q acc e2 hc2
        obtain ⟨e, he, hle2⟩ := ih3 y hy
        exact ⟨e, he, le_trans hle hle2⟩
      · exact ih2 e2 hm hc2
    · intro b hb
      rw [hfold]
      obtain ⟨y, hy, hle⟩ := lpmStep_dominates_acc q acc x b hb
      obtain ⟨e, he, hle2⟩ := ih3 y hy
      exact ⟨e, he, le_trans hle hle2⟩

theorem lpmLookup_spec (registry : List (endpoint_key × endpoint_info))
    (q : endpoint_key) (e : endpoint_key × endpoint_info)
    (h : lpmLookup registry q = some e) :
    (e ∈ registry ∧ lpmCond q e) ∧
    ∀ e2 ∈ registry, lpmCond q e2 → e2.1.prefix_len ≤ e.1.prefix_len := by
  have hf : List.foldl (lpmStep q) none registry = some e := h
  obtain ⟨h1, h2, _⟩ := lpmFold_inv q registry none
  rcases h1 e hf with hnone | hok
  · cases hnone
  · refine ⟨hok, ?_⟩
    intro e2 hm hc
    obtain ⟨e3, he3, hle⟩ := h2 e2 hm hc
    rw [hf] at he3
    have he23 : e3 = e := (Option.some.inj he3).symm
    exact he23 ▸ hle

/-- C5 amended: every lookup the pipeline issues carries `prefix_len = 32`,
and the returned policy is the registry entry with the longest matching
prefix over the key-data bytes, capped at the query's 32 bits — which lie
entirely inside the address field.  Consequently port and protocol never
influence the result (first conjunct), the returned entry dominates every
matching entry in prefix length (second conjunct), and only a packet whose
destination *address* matches no entry resolves to "no match", in which case
the pipeline passes it through with the environment untouched (third
conjunct). -/
theorem c5_amended_lookup_ignores_port_protocol :
    (∀ (registry : List (endpoint_key × endpoint_info)) (ip pA prA pB prB : Nat),
      lpmLookup registry { prefix_len := 32, ip := ip, port := pA, protocol := prA } =
      lpmLookup registry { prefix_len := 32, ip := ip, port := pB, protocol := prB }) ∧
    (∀ (registry : List (endpoint_key × endpoint_info)) (q : endpoint_key)
      (e : endpoint_key × endpoint_info),
      lpmLookup registry q = some e →
        (e ∈ registry ∧ lpmCond q e) ∧
        ∀ e2 ∈ registry, lpmCond q e2 → e2.1.prefix_len ≤ e.1.prefix_len) ∧
    (∀ (env : Env) (p : Packet),
      lpmLookup env.endpoints
        { prefix_len := 32, ip := p.daddr, port := p.dport, protocol := p.protocol } =
        none →
      (pipelineEndpoint env p).action = XdpAction.XDP_PASS ∧
      (pipelineEndpoint env p).env = env) := by
  refine ⟨?_, lpmLookup_spec, ?_⟩
  · intro registry ip pA prA pB prB
    unfold lpmLookup
    rw [lpmStep_port_protocol_irrelevant ip pA prA pB prB]
  · intro env p h
    constructor <;> simp [pipelineEndpoint, h]

theorem c5_amended_lookup_ignores_port_protocol_witness :
    (lpmLookup oneEndpointRegistry mismatchedQuery = some theEndpoint ∧
      lpmLookup oneEndpointRegistry
        { prefix_len := 32, ip := unmanagedPkt.daddr, port := unmanagedPkt.dport,
          protocol := unmanagedPkt.protocol } = none) ∧
    ((theEndpoint ∈ oneEndpointRegistry ∧ lpmCond mismatchedQuery theEndpoint) ∧
      ∀ e2 ∈ oneEndpointRegistry, lpmCond mismatchedQuery e2 →
        e2.1.prefix_len ≤ theEndpoint.1.prefix_len) ∧
    ((pipelineEndpoint failClosedEnv unmanagedPkt).action = XdpAction.XDP_PASS ∧
      (pipelineEndpoint failClosedEnv unmanagedPkt).env = failClosedEnv) := by
  have h1 : lpmLookup oneEndpointRegistry mismatchedQuery = some theEndpoint := by
    decide
  have h2 : lpmLookup oneEndpointRegistry
      { prefix_len := 32, ip := unmanagedPkt.daddr, port := unmanagedPkt.dport,
        protocol := unmanagedPkt.protocol } = none := by decide
  refine ⟨⟨h1, h2⟩,
    c5_amended_lookup_ignores_port_protocol.2.1 oneEndpointRegistry
      mismatchedQuery theEndpoint h1,
    c5_amended_lookup_ignores_port_protocol.2.2 failClosedEnv unmanagedPkt ?_⟩
  exact h2
